import Mathlib

/-!
Verification development for the CoreAudio exclusive-mode audio output
driver (src/audio/out/ao_coreaudio_exclusive.c).

The driver is embedded shallowly:
- pure algorithms (format negotiation, stream selection, the render
  callback body, the property-listener body) become Lean functions;
- the side-effecting acquisition and teardown sequences (init, uninit)
  become functions from an environment of external-call outcomes to a
  trace of externally visible actions plus the resulting private state,
  and device effects are given by an explicit action semantics.

Helper functions that live in the repository outside this file
(ca_asbd_is_better, ca_asbd_equals, ca_frames_to_us, ca_get_latency) are
either modelled from the specification (marked) or kept parametric.
-/

namespace CoreaudioExclusive

/-- Embedding of AudioStreamBasicDescription, restricted to the fields the
driver inspects.  A descriptor with mFormatID = 0 is the zero/unset
descriptor used by find_best_format as the initial running best. -/
structure ASBD where
  mFormatID : Nat
  mSampleRate : Nat
  mBitsPerChannel : Nat
  mChannelsPerFrame : Nat
deriving DecidableEq, Repr

/-- The all-zero descriptor, the initial value of out_fmt in
find_best_format. -/
def emptyAsbd : ASBD := ⟨0, 0, 0, 0⟩

/-- Distance between two sample rates, used by the comparator. -/
def rateDist (a b : Nat) : Nat := max a b - min a b

/-- Modelled from the spec: ca_asbd_is_better lives in
ao_coreaudio_utils.c, which is not part of this file.  Following the
specification of the comparator, a candidate ranks strictly better when
it wins the first differing criterion among: matching format family
(mFormatID tag), closest sample rate, highest bit depth, channel-count
match.  A structurally invalid descriptor (mFormatID = 0, not
describable) never ranks better than anything, and anything valid ranks
better than an invalid running best. -/
def ca_asbd_is_better (req old nw : ASBD) : Bool :=
  if nw.mFormatID == 0 then false
  else if old.mFormatID == 0 then true
  else if (nw.mFormatID == req.mFormatID) != (old.mFormatID == req.mFormatID) then
    nw.mFormatID == req.mFormatID
  else if rateDist nw.mSampleRate req.mSampleRate != rateDist old.mSampleRate req.mSampleRate then
    decide (rateDist nw.mSampleRate req.mSampleRate < rateDist old.mSampleRate req.mSampleRate)
  else if nw.mBitsPerChannel != old.mBitsPerChannel then
    decide (old.mBitsPerChannel < nw.mBitsPerChannel)
  else if (nw.mChannelsPerFrame == req.mChannelsPerFrame)
      != (old.mChannelsPerFrame == req.mChannelsPerFrame) then
    nw.mChannelsPerFrame == req.mChannelsPerFrame
  else false

/-- One iteration of the find_best_format loop: the candidate replaces
the running best when the best is still unset (mFormatID = 0) or the
comparator ranks the candidate better. -/
def findBestStep (asbd best cand : ASBD) : ASBD :=
  if best.mFormatID == 0 || ca_asbd_is_better asbd best cand then cand else best

/-- The running best after scanning the first k candidates, starting from
the zero descriptor, as find_best_format does. -/
def bestAfter (asbd : ASBD) (formats : List ASBD) (k : Nat) : ASBD :=
  (formats.take k).foldl (findBestStep asbd) emptyAsbd

/-- Embedding of find_best_format, as a function of the requested format
(the result of ca_fill_asbd) and the list of available physical formats
already retrieved from the stream.  Returns none when the final running
best still has mFormatID = 0 (the MP_ERR no-format-found path). -/
def find_best_format (asbd : ASBD) (formats : List ASBD) : Option ASBD :=
  let out := formats.foldl (findBestStep asbd) emptyAsbd
  if out.mFormatID == 0 then none else some out

/-- Result of one render callback invocation: either the unaligned-read
error status (kAudioHardwareUnspecifiedError, with ao_read_data never
called), or noErr together with the frame count and deadline passed to
ao_read_data. -/
inductive RenderResult where
  | hwErr
  | ok (frames : Nat) (deadline : Int)
deriving DecidableEq, Repr

/-- Embedding of render_cb_compressed.  External inputs are the current
time (mp_time_us), the precomputed base latency p.hw_latency_us, the
latency function ca_get_latency applied to the timestamp handed to this
invocation, and the conversion ca_frames_to_us; the session inputs are
the frame stride ao.sstride and the requested byte count
buf.mDataByteSize. -/
def render_cb_compressed (now hw_latency_us : Int) (get_latency : Int → Int)
    (frames_to_us : Nat → Int) (ts : Int) (sstride requested : Nat) : RenderResult :=
  let pseudo_frames := requested / sstride
  if pseudo_frames * sstride ≠ requested then
    RenderResult.hwErr
  else
    RenderResult.ok pseudo_frames
      (now + hw_latency_us + get_latency ts + frames_to_us pseudo_frames)

/-- Observable state of the reconfiguration watcher: the atomic
reload_requested flag and the number of ao_request_reload calls issued. -/
structure WatcherState where
  reload_requested : Bool
  reload_count : Nat
deriving DecidableEq, Repr

/-- The mismatch test of property_listener_cb: the CA_GET of the live
virtual format failed (none), or the live format is not structurally
equal to the configured stream_asbd.  The equality test ca_asbd_equals is
kept parametric. -/
def formatMismatch (eq : ASBD → ASBD → Bool) (cfg : ASBD) (live : Option ASBD) : Bool :=
  match live with
  | none => true
  | some f => !(eq cfg f)

/-- Embedding of property_listener_cb for one notification delivery:
on a mismatch, a compare-and-set of reload_requested from false to true
guards the single ao_request_reload call. -/
def property_listener_cb (eq : ASBD → ASBD → Bool) (cfg : ASBD)
    (s : WatcherState) (live : Option ASBD) : WatcherState :=
  if formatMismatch eq cfg live then
    if s.reload_requested then s
    else { reload_requested := true, reload_count := s.reload_count + 1 }
  else s

/-- The watcher state after a sequence of notification deliveries. -/
def runWatcher (eq : ASBD → ASBD → Bool) (cfg : ASBD)
    (s : WatcherState) (ds : List (Option ASBD)) : WatcherState :=
  ds.foldl (property_listener_cb eq cfg) s

/-- Initial watcher state of a fresh session. -/
def watcherInit : WatcherState := ⟨false, 0⟩

/-- One sub-stream as select_stream sees it: the result of reading its
direction property (none when the CA_GET fails), and whether
ca_stream_supports_compressed holds for it. -/
structure StreamInfo where
  direction : Option Nat
  supports_compressed : Bool
deriving DecidableEq, Repr

/-- The skip test of the select_stream loop: a stream is skipped exactly
when its direction was read successfully and is non-zero (not an output
stream). -/
def streamSkipped (s : StreamInfo) : Bool :=
  match s.direction with
  | some d => d ≠ 0
  | none => false

/-- Embedding of the select_stream loop over the retrieved stream list:
skip non-output streams, pick the first remaining stream that qualifies
(PCM always qualifies, otherwise compressed support is required),
returning its index. -/
def pick_stream (is_pcm : Bool) : List StreamInfo → Nat → Option Nat
  | [], _ => none
  | s :: rest, i =>
      if streamSkipped s then pick_stream is_pcm rest (i + 1)
      else if is_pcm || s.supports_compressed then some i
      else pick_stream is_pcm rest (i + 1)

/-- Embedding of select_stream: the retrieval of the stream list may fail
(streams none), which is the fatal could-not-get-number-of-streams path;
otherwise the loop above runs from index 0. -/
def select_stream (is_pcm : Bool) (streams : Option (List StreamInfo)) : Option Nat :=
  match streams with
  | none => none
  | some l => pick_stream is_pcm l 0

/-- Externally visible calls made by init and uninit, with the outcome
each call reported.  Parameters record exactly what the driver passed or
received where a later step or the device state depends on it. -/
inductive Action where
  | selectDevice
  | checkAlive
  | lockDevice (ok : Bool)
  | disableMixing (changed : Bool)
  | selectStream (idx : Option Nat)
  | findFormat (fmt : Option ASBD)
  | readPhysFormat (ok : Bool)
  | setPhysFormat (fmt : ASBD) (ok : Bool)
  | initChmap (ok : Bool)
  | readVirtFormat (ok : Bool)
  | queryLatency (result : Option Nat)
  | setListener (enabled : Bool) (ok : Bool)
  | createIOProc (ok : Bool)
  | stopDevice (ok : Bool)
  | destroyIOProc (ok : Bool)
  | enableMixing (changed : Bool) (ok : Bool)
  | unlockDevice (ok : Bool)
deriving DecidableEq, Repr

/-- A numeric tag for each kind of call, forgetting its parameters. -/
def actionKind : Action → Nat
  | .selectDevice => 0
  | .checkAlive => 1
  | .lockDevice _ => 2
  | .disableMixing _ => 3
  | .selectStream _ => 4
  | .findFormat _ => 5
  | .readPhysFormat _ => 6
  | .setPhysFormat _ _ => 7
  | .initChmap _ => 8
  | .readVirtFormat _ => 9
  | .queryLatency _ => 10
  | .setListener _ _ => 11
  | .createIOProc _ => 12
  | .stopDevice _ => 13
  | .destroyIOProc _ => 14
  | .enableMixing _ _ => 15
  | .unlockDevice _ => 16

/-- The fields of struct priv that acquisition populates. -/
structure Priv where
  hog_held : Bool
  changed_mixing : Bool
  stream_idx : Option Nat
  original_asbd : Option ASBD
  stream_asbd : Option ASBD
  hw_latency_us : Nat
deriving DecidableEq, Repr

/-- struct priv as priv_defaults leaves it before init runs. -/
def privDefaults : Priv := ⟨false, false, none, none, none, 0⟩

/-- Outcomes of every external call init makes, in program order.  Bool
fields record whether the call succeeded; data fields record what a
successful call returned. -/
structure InitEnv where
  select_device_ok : Bool
  fmt_pcm : Bool
  fmt_spdif : Bool
  lock_ok : Bool
  mixing_changed : Bool
  streams_ok : Bool
  streams : List StreamInfo
  req : ASBD
  formats_ok : Bool
  avail : List ASBD
  read_orig_ok : Bool
  orig : ASBD
  switch_ok : Bool
  chmap_ok : Bool
  read_virt_ok : Bool
  virt : ASBD
  new_format_ok : Bool
  channels_match : Bool
  lat_device : Option Nat
  lat_buffer : Option Nat
  lat_safety : Option Nat
  listener_ok : Bool
  ioproc_ok : Bool
  unwind_unlisten_ok : Bool
  unwind_unlock_ok : Bool
deriving Repr

/-- What init returns: CONTROL_TRUE or CONTROL_ERROR as a Bool, the trace
of external calls it made, and the populated private state. -/
structure InitResult where
  success : Bool
  trace : List Action
  priv : Priv
deriving Repr

/-- The coreaudio_error label of init: remove the property listener, then
release hog mode, and return CONTROL_ERROR. -/
def unwind (e : InitEnv) (tr : List Action) (p : Priv) : InitResult :=
  { success := false
    trace := tr ++ [Action.setListener false e.unwind_unlisten_ok,
                    Action.unlockDevice e.unwind_unlock_ok]
    priv := { p with hog_held := p.hog_held && !e.unwind_unlock_ok } }

/-- Embedding of init.  The step order matches the source: select device,
format-family check, alive check, hog lock (warn only), disable mixing
(warn only), select_stream, find_best_format, read the original physical
format, switch the physical format, channel-map init, read the virtual
format, format mapping and channel checks, the three latency queries
(warn only, failures contribute zero), install the property listener,
create the render IOProc.  The parameter frames_to_us stands for the
external ca_frames_to_us, applied to the negotiated sample rate and the
summed latency frame count. -/
def init (frames_to_us : Nat → Nat → Nat) (e : InitEnv) : InitResult :=
  let tr := [Action.selectDevice]
  if !e.select_device_ok then ⟨false, tr, privDefaults⟩ else
  if !(e.fmt_pcm || e.fmt_spdif) then ⟨false, tr, privDefaults⟩ else
  let tr := tr ++ [Action.checkAlive, Action.lockDevice e.lock_ok]
  let p : Priv := { privDefaults with hog_held := e.lock_ok }
  let tr := tr ++ [Action.disableMixing e.mixing_changed]
  let p := { p with changed_mixing := e.mixing_changed }
  let sidx := select_stream e.fmt_pcm (if e.streams_ok then some e.streams else none)
  let tr := tr ++ [Action.selectStream sidx]
  match sidx with
  | none => unwind e tr p
  | some idx =>
    let p := { p with stream_idx := some idx }
    let bf := if e.formats_ok then find_best_format e.req e.avail else none
    let tr := tr ++ [Action.findFormat bf]
    match bf with
    | none => unwind e tr p
    | some hwfmt =>
      let tr := tr ++ [Action.readPhysFormat e.read_orig_ok]
      if !e.read_orig_ok then unwind e tr p else
      let p := { p with original_asbd := some e.orig }
      let tr := tr ++ [Action.setPhysFormat hwfmt e.switch_ok]
      if !e.switch_ok then unwind e tr p else
      let tr := tr ++ [Action.initChmap e.chmap_ok]
      if !e.chmap_ok then unwind e tr p else
      let tr := tr ++ [Action.readVirtFormat e.read_virt_ok]
      if !e.read_virt_ok then unwind e tr p else
      let p := { p with stream_asbd := some e.virt }
      if !e.new_format_ok then unwind e tr p else
      if !e.channels_match then unwind e tr p else
      let tr := tr ++ [Action.queryLatency e.lat_device, Action.queryLatency e.lat_buffer,
                       Action.queryLatency e.lat_safety]
      let frames := e.lat_device.getD 0 + e.lat_buffer.getD 0 + e.lat_safety.getD 0
      let p := { p with hw_latency_us := frames_to_us e.virt.mSampleRate frames }
      let tr := tr ++ [Action.setListener true e.listener_ok]
      if !e.listener_ok then unwind e tr p else
      let tr := tr ++ [Action.createIOProc e.ioproc_ok]
      if !e.ioproc_ok then unwind e tr p else
      ⟨true, tr, p⟩

/-- Outcomes of the external calls uninit makes, in program order. -/
structure UninitEnv where
  remove_listener_ok : Bool
  stop_ok : Bool
  destroy_ok : Bool
  restore_ok : Bool
  enable_mixing_ok : Bool
  unlock_ok : Bool
deriving DecidableEq, Repr

/-- Embedding of uninit: remove the property listener, stop the device,
destroy the render IOProc, write the cached original physical format
back, re-enable mixing (only when it was changed), release hog mode.
Every call is made unconditionally; a failure is only logged. -/
def uninit (p : Priv) (e : UninitEnv) : List Action :=
  [Action.setListener false e.remove_listener_ok,
   Action.stopDevice e.stop_ok,
   Action.destroyIOProc e.destroy_ok,
   Action.setPhysFormat (p.original_asbd.getD emptyAsbd) e.restore_ok,
   Action.enableMixing p.changed_mixing e.enable_mixing_ok,
   Action.unlockDevice e.unlock_ok]

/-- Abstract state of the device as far as this driver mutates it. -/
structure DeviceState where
  hogged : Bool
  mixingEnabled : Bool
  physFormat : ASBD
  listenerOn : Bool
  ioprocOn : Bool
deriving DecidableEq, Repr

/-- Effect of one external call on the device state. -/
def applyAction (d : DeviceState) : Action → DeviceState
  | .lockDevice ok => if ok then { d with hogged := true } else d
  | .unlockDevice ok => if ok then { d with hogged := false } else d
  | .disableMixing changed => if changed then { d with mixingEnabled := false } else d
  | .enableMixing changed ok =>
      if changed && ok then { d with mixingEnabled := true } else d
  | .setPhysFormat f ok => if ok then { d with physFormat := f } else d
  | .setListener enabled ok => if ok then { d with listenerOn := enabled } else d
  | .createIOProc ok => if ok then { d with ioprocOn := true } else d
  | .destroyIOProc ok => if ok then { d with ioprocOn := false } else d
  | _ => d

/-- The device state after a trace of calls. -/
def runTrace (d : DeviceState) (tr : List Action) : DeviceState :=
  tr.foldl applyAction d

/-- Scanner for the read-before-switch property: true when any
physical-format write in the trace is preceded by a read of the original
physical format. -/
def readBeforeSwitch : List Action → Bool
  | [] => true
  | Action.setPhysFormat _ _ :: _ => false
  | Action.readPhysFormat _ :: _ => true
  | _ :: rest => readBeforeSwitch rest

/-- The physical format a run of init leaves on the device when it does
not complete: some hwf exactly when stream selection and negotiation
succeed, the original format is read, and the switch itself succeeds (so
the device now runs the negotiated format hwf); none when the switch is
never reached or fails, leaving the device format untouched. -/
def switchTarget (e : InitEnv) : Option ASBD :=
  match select_stream e.fmt_pcm (if e.streams_ok then some e.streams else none) with
  | none => none
  | some _ =>
    match (if e.formats_ok then find_best_format e.req e.avail else none) with
    | none => none
    | some hwf => if e.read_orig_ok && e.switch_ok then some hwf else none

/-- A concrete frames-to-microseconds conversion used by witnesses. -/
def ftuDefault : Nat → Nat → Nat := fun _ frames => frames

/-- A concrete requested format used by witnesses. -/
def wReq : ASBD := ⟨1, 48000, 16, 2⟩

/-- A concrete candidate list used by witnesses: one structurally invalid
entry, then a 48kHz/16-bit entry, then a 96kHz/24-bit entry. -/
def wFormats : List ASBD := [⟨0, 0, 0, 0⟩, ⟨1, 48000, 16, 2⟩, ⟨1, 96000, 24, 2⟩]

/-- A concrete environment in which every external call of init
succeeds (the middle latency query fails, contributing zero). -/
def envOk : InitEnv where
  select_device_ok := true
  fmt_pcm := true
  fmt_spdif := false
  lock_ok := true
  mixing_changed := true
  streams_ok := true
  streams := [⟨some 0, false⟩]
  req := ⟨1, 48000, 16, 2⟩
  formats_ok := true
  avail := [⟨1, 48000, 16, 2⟩, ⟨1, 96000, 24, 2⟩]
  read_orig_ok := true
  orig := ⟨1, 44100, 16, 2⟩
  switch_ok := true
  chmap_ok := true
  read_virt_ok := true
  virt := ⟨1, 48000, 16, 2⟩
  new_format_ok := true
  channels_match := true
  lat_device := some 32
  lat_buffer := none
  lat_safety := some 64
  listener_ok := true
  ioproc_ok := true
  unwind_unlisten_ok := true
  unwind_unlock_ok := true

/-- envOk with the physical format switch failing: init fails at the
Switching step after mixing was suppressed. -/
def envSwitchFail : InitEnv := { envOk with switch_ok := false }

/-- envOk with hog-mode acquisition failing. -/
def envLockFail : InitEnv := { envOk with lock_ok := false }

/-- envOk with channel-map initialization failing: init fails only after
the physical-format switch has already succeeded. -/
def envChmapFail : InitEnv := { envOk with chmap_ok := false }

/-- The pre-acquisition device state used in the C1 scenario: not hogged,
mixing enabled, running some original format, no listener, no IOProc. -/
def dev0 : DeviceState := ⟨false, true, ⟨1, 44100, 16, 2⟩, false, false⟩

/-- A teardown environment in which every teardown call succeeds. -/
def ueAll : UninitEnv := ⟨true, true, true, true, true, true⟩

lemma ca_asbd_is_better_invalid (req old : ASBD) (nw : ASBD)
    (h : nw.mFormatID = 0) : ca_asbd_is_better req old nw = false := by
  simp [ca_asbd_is_better, h]

/-- The step result is always one of the two inputs. -/
lemma findBestStep_mem (asbd best cand : ASBD) :
    findBestStep asbd best cand = best ∨ findBestStep asbd best cand = cand := by
  unfold findBestStep
  split <;> simp

/-- The step result is valid iff the best or the candidate is. -/
lemma findBestStep_valid (asbd best cand : ASBD) :
    (findBestStep asbd best cand).mFormatID ≠ 0 ↔
      (best.mFormatID ≠ 0 ∨ cand.mFormatID ≠ 0) := by
  unfold findBestStep
  by_cases hb : best.mFormatID = 0
  · simp [hb]
  · by_cases hc : cand.mFormatID = 0
    · simp [hb, hc, ca_asbd_is_better_invalid asbd best cand hc]
    · constructor
      · intro _; exact Or.inl hb
      · intro _; split <;> assumption

lemma foldl_findBest_valid (asbd : ASBD) (l : List ASBD) (b : ASBD) :
    ((l.foldl (findBestStep asbd) b).mFormatID ≠ 0) ↔
      (b.mFormatID ≠ 0 ∨ ∃ f ∈ l, f.mFormatID ≠ 0) := by
  induction l generalizing b with
  | nil => simp
  | cons c l ih =>
      simp only [List.foldl_cons]
      rw [ih, findBestStep_valid]
      constructor
      · rintro (⟨hb | hc⟩ | ⟨f, hf, hv⟩)
        · exact Or.inl hb
        · exact Or.inr ⟨c, by simp, hc⟩
        · exact Or.inr ⟨f, by simp [hf], hv⟩
      · rintro (hb | ⟨f, hf, hv⟩)
        · exact Or.inl (Or.inl hb)
        · rcases List.mem_cons.mp hf with rfl | hf
          · exact Or.inl (Or.inr hv)
          · exact Or.inr ⟨f, hf, hv⟩

lemma foldl_findBest_mem (asbd : ASBD) (l : List ASBD) (b : ASBD) :
    l.foldl (findBestStep asbd) b ∈ l ∨ l.foldl (findBestStep asbd) b = b := by
  induction l generalizing b with
  | nil => simp
  | cons c l ih =>
      simp only [List.foldl_cons]
      rcases ih (findBestStep asbd b c) with h | h
      · exact Or.inl (List.mem_cons_of_mem _ h)
      · rcases findBestStep_mem asbd b c with hs | hs
        · exact Or.inr (h.trans hs)
        · exact Or.inl (by rw [h, hs]; exact List.mem_cons_self _ _)

/-- Claim C2: find_best_format returns the error result exactly when no
candidate is structurally valid (nonzero mFormatID), in particular on
the empty list; otherwise it returns a member of the candidate list; the
first structurally valid candidate becomes the running best
unconditionally; and once the running best is valid a later candidate
replaces it exactly when the comparator ranks it strictly better, so a
tie keeps the first-seen candidate. -/
theorem claimC2_find_best_format (asbd : ASBD) (formats : List ASBD) :
    (find_best_format asbd formats = none ↔ ∀ f ∈ formats, f.mFormatID = 0)
    ∧ (∀ f, find_best_format asbd formats = some f → f ∈ formats)
    ∧ (∀ i, ∀ h : i < formats.length,
        (∀ j, ∀ hj : j < i, (formats.get ⟨j, hj.trans h⟩).mFormatID = 0) →
        (formats.get ⟨i, h⟩).mFormatID ≠ 0 →
        bestAfter asbd formats (i + 1) = formats.get ⟨i, h⟩)
    ∧ (∀ best cand, best.mFormatID ≠ 0 →
        findBestStep asbd best cand =
          if ca_asbd_is_better asbd best cand then cand else best) := by
  have hv := foldl_findBest_valid asbd formats emptyAsbd
  simp only [emptyAsbd, ne_eq, not_true_eq_false, false_or] at hv
  refine ⟨⟨?_, ?_⟩, ?_, ?_, ?_⟩
  · intro hnone f hf
    by_contra hne
    have hval : (formats.foldl (findBestStep asbd) emptyAsbd).mFormatID ≠ 0 :=
      hv.mpr ⟨f, hf, hne⟩
    simp only [find_best_format] at hnone
    simp [hval] at hnone
  · intro hall
    have hval : (formats.foldl (findBestStep asbd) emptyAsbd).mFormatID = 0 := by
      by_contra hne
      rcases hv.mp hne with ⟨f, hf, hfv⟩
      exact hfv (hall f hf)
    simp [find_best_format, hval]
  · intro f hsome
    simp only [find_best_format] at hsome
    by_cases h0 : (formats.foldl (findBestStep asbd) emptyAsbd).mFormatID = 0
    · simp [h0] at hsome
    · have hfold : formats.foldl (findBestStep asbd) emptyAsbd = f := by
        simpa [h0] using hsome
      rcases foldl_findBest_mem asbd formats emptyAsbd with h | h
      · rwa [hfold] at h
      · rw [h] at h0
        simp [emptyAsbd] at h0
  · intro i h hprev hval
    have hinv : (bestAfter asbd formats i).mFormatID = 0 := by
      by_contra hne
      rw [bestAfter] at hne
      rcases (foldl_findBest_valid asbd (formats.take i) emptyAsbd).mp hne with h0 | ⟨f, hf, hfv⟩
      · simp [emptyAsbd] at h0
      · rcases List.mem_iff_getElem.mp hf with ⟨n, hn, rfl⟩
        have hni : n < i := by
          have := hn
          rw [List.length_take] at this
          omega
        have := hprev n hni
        simp only [List.get_eq_getElem] at this
        rw [List.getElem_take] at hfv
        exact hfv this
    have htake : formats.take (i + 1) = formats.take i ++ [formats.get ⟨i, h⟩] := by
      rw [List.take_succ]
      simp [List.getElem?_eq_getElem h]
    rw [bestAfter, htake, List.foldl_append, List.foldl_cons, List.foldl_nil]
    have : ((formats.take i).foldl (findBestStep asbd) emptyAsbd) = bestAfter asbd formats i := rfl
    rw [this]
    unfold findBestStep
    simp [hinv]
  · intro best cand hne
    unfold findBestStep
    have hb : (best.mFormatID == 0) = false := by simpa using hne
    rw [hb, Bool.false_or]

/-- Witness for C2: on the concrete candidate list wFormats with one
invalid entry, the first valid candidate (48kHz/16-bit) becomes the
running best after two candidates, and the negotiated result is a member
of the list. -/
theorem claimC2_witness :
    bestAfter wReq wFormats 2 = ⟨1, 48000, 16, 2⟩
    ∧ (⟨1, 48000, 16, 2⟩ : ASBD) ∈ wFormats := by
  have h := claimC2_find_best_format wReq wFormats
  refine ⟨?_, ?_⟩
  · have h3 := h.2.2.1 1 (by decide) (by decide) (by decide)
    exact h3.trans (by decide)
  · exact h.2.1 ⟨1, 48000, 16, 2⟩ (by decide)

/-- Claim C3: when the requested byte count is not an exact multiple of
the frame stride, render_cb_compressed returns the hardware error status
and never invokes ao_read_data; when it is an exact multiple, exactly
requested / stride frames are pulled. -/
theorem claimC3_render_alignment (now hw : Int) (gl : Int → Int) (f2u : Nat → Int)
    (ts : Int) (sstride requested : Nat) (_hpos : 0 < sstride) :
    (¬ sstride ∣ requested →
      render_cb_compressed now hw gl f2u ts sstride requested = RenderResult.hwErr)
    ∧ (sstride ∣ requested →
      render_cb_compressed now hw gl f2u ts sstride requested =
        RenderResult.ok (requested / sstride)
          (now + hw + gl ts + f2u (requested / sstride))) := by
  unfold render_cb_compressed
  constructor
  · intro hndvd
    have hne : requested / sstride * sstride ≠ requested := by
      intro heq
      refine hndvd ⟨requested / sstride, ?_⟩
      rw [Nat.mul_comm]
      exact heq.symm
    simp [hne]
  · intro hdvd
    have heq : requested / sstride * sstride = requested := Nat.div_mul_cancel hdvd
    simp [heq]

/-- Witness for C3: stride 4 with 6 requested bytes is the error path,
stride 4 with 4096 requested bytes pulls exactly 1024 frames. -/
theorem claimC3_witness :
    render_cb_compressed 0 0 (fun t => t) (fun _ => 7) 0 4 6 = RenderResult.hwErr
    ∧ render_cb_compressed 0 0 (fun t => t) (fun _ => 7) 0 4 4096 =
        RenderResult.ok 1024 7 := by
  have h1 := claimC3_render_alignment 0 0 (fun t => t) (fun _ => 7) 0 4 6 (by decide)
  have h2 := claimC3_render_alignment 0 0 (fun t => t) (fun _ => 7) 0 4 4096 (by decide)
  exact ⟨h1.1 (by decide), (h2.2 (by decide)).trans (by decide)⟩

/-- Claim C4: for an aligned invocation, the deadline handed to
ao_read_data is now plus the precomputed base hardware latency plus the
callback latency derived from the timestamp of this invocation plus the
requested frame count converted to microseconds. -/
theorem claimC4_render_deadline (now hw : Int) (gl : Int → Int) (f2u : Nat → Int)
    (ts : Int) (sstride requested : Nat) (hdvd : sstride ∣ requested) :
    render_cb_compressed now hw gl f2u ts sstride requested =
      RenderResult.ok (requested / sstride)
        (now + hw + gl ts + f2u (requested / sstride)) := by
  unfold render_cb_compressed
  have heq : requested / sstride * sstride = requested := Nat.div_mul_cancel hdvd
  simp [heq]

/-- Witness for C4: a concrete aligned invocation, with its deadline
computed as the four-term sum. -/
theorem claimC4_witness :
    render_cb_compressed 100 200 (fun t => 2 * t) (fun n => (n : Int)) 5 4 4096 =
      RenderResult.ok 1024 1334 := by
  have h := claimC4_render_deadline 100 200 (fun t => 2 * t) (fun n => (n : Int)) 5 4 4096
    (by decide)
  exact h.trans (by decide)

/-- Claim C10: a sub-stream is skipped only when its direction property
was read successfully and is non-zero; a sub-stream whose direction
cannot be read is not skipped, and when it qualifies for the requested
format family it is selected. -/
theorem claimC10_unreadable_direction (is_pcm : Bool)
    (s : StreamInfo) (rest : List StreamInfo) (i : Nat)
    (hdir : s.direction = none) :
    streamSkipped s = false
    ∧ (∀ t : StreamInfo, streamSkipped t = true ↔ ∃ d, t.direction = some d ∧ d ≠ 0)
    ∧ ((is_pcm || s.supports_compressed) = true →
        pick_stream is_pcm (s :: rest) i = some i) := by
  refine ⟨by simp [streamSkipped, hdir], ?_, ?_⟩
  · intro t
    unfold streamSkipped
    cases ht : t.direction <;> simp
  · intro hq
    unfold pick_stream
    simp [streamSkipped, hdir, hq]

/-- Witness for C10: a single stream with an unreadable direction is
selected for a PCM request. -/
theorem claimC10_witness :
    pick_stream true [⟨none, false⟩] 0 = some 0 := by
  have h := claimC10_unreadable_direction true ⟨none, false⟩ [] 0 rfl
  exact h.2.2 rfl

lemma property_listener_cb_requested (eq : ASBD → ASBD → Bool) (cfg : ASBD)
    (s : WatcherState) (d : Option ASBD) (h : s.reload_requested = true) :
    property_listener_cb eq cfg s d = s := by
  unfold property_listener_cb
  simp [h]

lemma runWatcher_requested (eq : ASBD → ASBD → Bool) (cfg : ASBD)
    (ds : List (Option ASBD)) (s : WatcherState) (h : s.reload_requested = true) :
    runWatcher eq cfg s ds = s := by
  induction ds generalizing s with
  | nil => rfl
  | cons d rest ih =>
      show (d :: rest).foldl (property_listener_cb eq cfg) s = s
      rw [List.foldl_cons, property_listener_cb_requested eq cfg s d h]
      exact ih s h

lemma runWatcher_no_mismatch (eq : ASBD → ASBD → Bool) (cfg : ASBD)
    (ds : List (Option ASBD)) (s : WatcherState)
    (h : ∀ d ∈ ds, formatMismatch eq cfg d = false) :
    runWatcher eq cfg s ds = s := by
  induction ds generalizing s with
  | nil => rfl
  | cons d rest ih =>
      show (d :: rest).foldl (property_listener_cb eq cfg) s = s
      rw [List.foldl_cons]
      have hs : property_listener_cb eq cfg s d = s := by
        unfold property_listener_cb
        simp [h d (by simp)]
      rw [hs]
      exact ih s (fun d2 hd2 => h d2 (List.mem_cons_of_mem d hd2))

/-- Claim C5: starting from a fresh session, any non-empty sequence of
notification deliveries that all observe a mismatched (or unreadable)
live format issues exactly one reload request and leaves the
reload_requested flag set; deliveries while the formats match issue zero
reload requests; the flag is never reset by a delivery; and an
unreadable live format counts as a mismatch. -/
theorem claimC5_watcher_edge_trigger (eq : ASBD → ASBD → Bool) (cfg : ASBD)
    (ds : List (Option ASBD)) :
    ((∀ d ∈ ds, formatMismatch eq cfg d = true) → ds ≠ [] →
      runWatcher eq cfg watcherInit ds = ⟨true, 1⟩)
    ∧ ((∀ d ∈ ds, formatMismatch eq cfg d = false) →
      runWatcher eq cfg watcherInit ds = watcherInit)
    ∧ (∀ s : WatcherState, ∀ d, s.reload_requested = true →
        (property_listener_cb eq cfg s d).reload_requested = true)
    ∧ formatMismatch eq cfg none = true := by
  refine ⟨?_, ?_, ?_, rfl⟩
  · intro hmm hne
    match ds, hne with
    | d :: rest, _ =>
      show (d :: rest).foldl (property_listener_cb eq cfg) watcherInit = ⟨true, 1⟩
      rw [List.foldl_cons]
      have h1 : property_listener_cb eq cfg watcherInit d = ⟨true, 1⟩ := by
        unfold property_listener_cb watcherInit
        simp [hmm d (by simp)]
      rw [h1]
      exact runWatcher_requested eq cfg rest ⟨true, 1⟩ rfl
  · intro hok
    exact runWatcher_no_mismatch eq cfg ds watcherInit hok
  · intro s d hs
    rw [property_listener_cb_requested eq cfg s d hs]
    exact hs

/-- Witness for C5: three mismatched deliveries (two unreadable, one
structurally different) issue exactly one reload; a matching delivery
issues none. -/
theorem claimC5_witness :
    runWatcher (fun a b => a == b) ⟨1, 48000, 16, 2⟩ watcherInit
      [none, some ⟨2, 0, 0, 0⟩, none] = ⟨true, 1⟩
    ∧ runWatcher (fun a b => a == b) ⟨1, 48000, 16, 2⟩ watcherInit
      [some ⟨1, 48000, 16, 2⟩] = watcherInit := by
  have h1 := claimC5_watcher_edge_trigger (fun a b => a == b) ⟨1, 48000, 16, 2⟩
    [none, some ⟨2, 0, 0, 0⟩, none]
  have h2 := claimC5_watcher_edge_trigger (fun a b => a == b) ⟨1, 48000, 16, 2⟩
    [some ⟨1, 48000, 16, 2⟩]
  exact ⟨h1.1 (by decide) (by decide), h2.2.1 (by decide)⟩

/-- Claim C8: uninit performs all six teardown steps unconditionally and
in fixed order regardless of which steps fail, with the
notification-listener removal first. -/
theorem claimC8_uninit_total (p : Priv) (ue : UninitEnv) :
    (uninit p ue).map actionKind = [11, 13, 14, 7, 15, 16]
    ∧ (uninit p ue).head? = some (Action.setListener false ue.remove_listener_ok) :=
  ⟨rfl, rfl⟩

/-- Claim C1 is false as stated on the code: with every step before the
format switch succeeding and mixing suppressed, a failure at the
Switching step runs the init error path, which removes the listener and
releases the lock but does not restore mixing, so the post-failure
device state differs from the pre-acquisition state. -/
theorem claimC1_counterexample :
    (init ftuDefault envSwitchFail).success = false
    ∧ envSwitchFail.switch_ok = false
    ∧ envSwitchFail.read_orig_ok = true
    ∧ envSwitchFail.mixing_changed = true
    ∧ dev0.mixingEnabled = true
    ∧ (runTrace dev0 (init ftuDefault envSwitchFail).trace).mixingEnabled = false
    ∧ runTrace dev0 (init ftuDefault envSwitchFail).trace ≠ dev0 := by
  decide

/-- Claim C1 (amended): whenever init fails from any state after the
format-support check, the error path undoes only two steps: it removes
the property listener and releases the hog lock.  Mixing stays
suppressed whenever the mixing-suppression step had changed it, the
render IOProc state is untouched, and the physical format is not
restored: if the switch had succeeded, the device keeps the negotiated
format (switchTarget e), otherwise it keeps its previous format. -/
theorem claimC1_amended_rollback (ftu : Nat → Nat → Nat) (e : InitEnv) (d : DeviceState)
    (h1 : e.select_device_ok = true)
    (h2 : (e.fmt_pcm || e.fmt_spdif) = true)
    (h9 : e.unwind_unlisten_ok = true) (h10 : e.unwind_unlock_ok = true)
    (hfail : (init ftu e).success = false) :
    runTrace d (init ftu e).trace =
      { d with hogged := false, listenerOn := false,
               mixingEnabled := if e.mixing_changed then false else d.mixingEnabled,
               physFormat := (switchTarget e).getD d.physFormat } := by
  rcases hsidx : select_stream e.fmt_pcm (if e.streams_ok then some e.streams else none)
      with _ | idx
  · cases hm : e.mixing_changed <;> cases hl : e.lock_ok <;>
      simp [init, switchTarget, unwind, runTrace, applyAction, h1, h2, h9, h10, hsidx,
        hm, hl]
  · rcases hbf : (if e.formats_ok then find_best_format e.req e.avail else none)
        with _ | hwfmt
    · cases hm : e.mixing_changed <;> cases hl : e.lock_ok <;>
        simp [init, switchTarget, unwind, runTrace, applyAction, h1, h2, h9, h10, hsidx,
          hbf, hm, hl]
    · cases h7 : e.read_orig_ok
      · cases hm : e.mixing_changed <;> cases hl : e.lock_ok <;>
          simp [init, switchTarget, unwind, runTrace, applyAction, h1, h2, h9, h10,
            hsidx, hbf, h7, hm, hl]
      · cases h8 : e.switch_ok
        · cases hm : e.mixing_changed <;> cases hl : e.lock_ok <;>
            simp [init, switchTarget, unwind, runTrace, applyAction, h1, h2, h9, h10,
              hsidx, hbf, h7, h8, hm, hl]
        · cases hc : e.chmap_ok
          · cases hm : e.mixing_changed <;> cases hl : e.lock_ok <;>
              simp [init, switchTarget, unwind, runTrace, applyAction, h1, h2, h9, h10,
                hsidx, hbf, h7, h8, hc, hm, hl]
          · cases hv : e.read_virt_ok
            · cases hm : e.mixing_changed <;> cases hl : e.lock_ok <;>
                simp [init, switchTarget, unwind, runTrace, applyAction, h1, h2, h9, h10,
                  hsidx, hbf, h7, h8, hc, hv, hm, hl]
            · cases hnf : e.new_format_ok
              · cases hm : e.mixing_changed <;> cases hl : e.lock_ok <;>
                  simp [init, switchTarget, unwind, runTrace, applyAction, h1, h2, h9,
                    h10, hsidx, hbf, h7, h8, hc, hv, hnf, hm, hl]
              · cases hch : e.channels_match
                · cases hm : e.mixing_changed <;> cases hl : e.lock_ok <;>
                    simp [init, switchTarget, unwind, runTrace, applyAction, h1, h2, h9,
                      h10, hsidx, hbf, h7, h8, hc, hv, hnf, hch, hm, hl]
                · cases hlis : e.listener_ok
                  · cases hm : e.mixing_changed <;> cases hl : e.lock_ok <;>
                      simp [init, switchTarget, unwind, runTrace, applyAction, h1, h2,
                        h9, h10, hsidx, hbf, h7, h8, hc, hv, hnf, hch, hlis, hm, hl]
                  · cases hio : e.ioproc_ok
                    · cases hm : e.mixing_changed <;> cases hl : e.lock_ok <;>
                        simp [init, switchTarget, unwind, runTrace, applyAction, h1, h2,
                          h9, h10, hsidx, hbf, h7, h8, hc, hv, hnf, hch, hlis, hio, hm,
                          hl]
                    · exfalso
                      simp [init, h1, h2, hsidx, hbf, h7, h8, hc, hv, hnf, hch, hlis,
                        hio] at hfail

/-- Witness for C1 (amended): a failure at the Switching step and a
failure after a successful switch (channel-map failure), both starting
from the concrete pre-acquisition device state; in the first case the
device keeps its previous format and in the second it keeps the
negotiated one, and in both cases mixing remains suppressed. -/
theorem claimC1_amended_witness :
    (init ftuDefault envSwitchFail).success = false
    ∧ runTrace dev0 (init ftuDefault envSwitchFail).trace =
        { dev0 with hogged := false, listenerOn := false, mixingEnabled := false }
    ∧ (init ftuDefault envChmapFail).success = false
    ∧ runTrace dev0 (init ftuDefault envChmapFail).trace =
        { dev0 with hogged := false, listenerOn := false, mixingEnabled := false,
                    physFormat := ⟨1, 48000, 16, 2⟩ } := by
  have hs := claimC1_amended_rollback ftuDefault envSwitchFail dev0 rfl rfl rfl rfl
    (by decide)
  have hcm := claimC1_amended_rollback ftuDefault envChmapFail dev0 rfl rfl rfl rfl
    (by decide)
  exact ⟨by decide, hs.trans (by decide), by decide, hcm.trans (by decide)⟩

/-- Claim C6: failure to acquire hog mode is only a warning; init
proceeds through mixing suppression, stream selection, negotiation and
all later steps, and succeeds. -/
theorem claimC6_lock_failure_is_warning (ftu : Nat → Nat → Nat) (e : InitEnv)
    (idx : Nat) (hwf : ASBD)
    (h1 : e.select_device_ok = true) (h2 : e.fmt_pcm = true)
    (hlock : e.lock_ok = false)
    (h3 : e.streams_ok = true)
    (h4 : pick_stream e.fmt_pcm e.streams 0 = some idx)
    (h5 : e.formats_ok = true)
    (h6 : find_best_format e.req e.avail = some hwf)
    (h7 : e.read_orig_ok = true) (h8 : e.switch_ok = true) (h9 : e.chmap_ok = true)
    (h10 : e.read_virt_ok = true) (h11 : e.new_format_ok = true)
    (h12 : e.channels_match = true) (h13 : e.listener_ok = true)
    (h14 : e.ioproc_ok = true) :
    (init ftu e).success = true
    ∧ (init ftu e).trace =
      [Action.selectDevice, Action.checkAlive, Action.lockDevice false,
       Action.disableMixing e.mixing_changed, Action.selectStream (some idx),
       Action.findFormat (some hwf), Action.readPhysFormat true,
       Action.setPhysFormat hwf true, Action.initChmap true, Action.readVirtFormat true,
       Action.queryLatency e.lat_device, Action.queryLatency e.lat_buffer,
       Action.queryLatency e.lat_safety, Action.setListener true true,
       Action.createIOProc true] := by
  rw [h2] at h4
  simp [init, select_stream, h1, h2, h3, h4, h5, h6, h7, h8, h9, h10, h11, h12, h13,
    h14, hlock]

/-- Witness for C6: in the concrete environment where only the hog lock
fails, init succeeds. -/
theorem claimC6_witness :
    (init ftuDefault envLockFail).success = true := by
  have h := claimC6_lock_failure_is_warning ftuDefault envLockFail 0 ⟨1, 48000, 16, 2⟩
    rfl rfl rfl rfl (by decide) rfl (by decide) rfl rfl rfl rfl rfl rfl rfl rfl
  exact h.1

/-- Claim C9: the base hardware latency is the sum of the three latency
queries, a failed query contributing zero, converted with the negotiated
sample rate; latency-query failures never abort acquisition. -/
theorem claimC9_latency_sum (ftu : Nat → Nat → Nat) (e : InitEnv)
    (idx : Nat) (hwf : ASBD)
    (h1 : e.select_device_ok = true) (h2 : e.fmt_pcm = true)
    (h3 : e.streams_ok = true)
    (h4 : pick_stream e.fmt_pcm e.streams 0 = some idx)
    (h5 : e.formats_ok = true)
    (h6 : find_best_format e.req e.avail = some hwf)
    (h7 : e.read_orig_ok = true) (h8 : e.switch_ok = true) (h9 : e.chmap_ok = true)
    (h10 : e.read_virt_ok = true) (h11 : e.new_format_ok = true)
    (h12 : e.channels_match = true) (h13 : e.listener_ok = true)
    (h14 : e.ioproc_ok = true) :
    (init ftu e).success = true
    ∧ (init ftu e).priv.hw_latency_us =
        ftu e.virt.mSampleRate
          (e.lat_device.getD 0 + e.lat_buffer.getD 0 + e.lat_safety.getD 0) := by
  rw [h2] at h4
  simp [init, select_stream, h1, h2, h3, h4, h5, h6, h7, h8, h9, h10, h11, h12, h13, h14]

/-- Witness for C9: in the concrete all-ok environment whose middle
latency query fails, init succeeds and the base latency is 32 + 0 + 64
converted at the negotiated rate. -/
theorem claimC9_witness :
    (init ftuDefault envOk).success = true
    ∧ (init ftuDefault envOk).priv.hw_latency_us = 96 := by
  have h := claimC9_latency_sum ftuDefault envOk 0 ⟨1, 48000, 16, 2⟩
    rfl rfl rfl (by decide) rfl (by decide) rfl rfl rfl rfl rfl rfl rfl rfl
  exact ⟨h.1, h.2.trans (by decide)⟩

lemma init_read_before_switch (ftu : Nat → Nat → Nat) (e : InitEnv) :
    readBeforeSwitch (init ftu e).trace = true
    ∧ (∀ f ok, Action.setPhysFormat f ok ∈ (init ftu e).trace →
        (init ftu e).priv.original_asbd = some e.orig) := by
  cases h1 : e.select_device_ok
  · simp [init, h1, readBeforeSwitch]
  · cases hf : e.fmt_pcm || e.fmt_spdif
    · simp [init, h1, hf, readBeforeSwitch]
    · rcases hsidx : select_stream e.fmt_pcm (if e.streams_ok then some e.streams else none)
        with _ | idx
      · simp [init, h1, hf, hsidx, readBeforeSwitch, unwind]
      · rcases hbf : (if e.formats_ok then find_best_format e.req e.avail else none)
          with _ | hwfmt
        · simp [init, h1, hf, hsidx, hbf, readBeforeSwitch, unwind]
        · cases h7 : e.read_orig_ok
          · simp [init, h1, hf, hsidx, hbf, h7, readBeforeSwitch, unwind]
          · cases h8 : e.switch_ok
            · simp [init, h1, hf, hsidx, hbf, h7, h8, readBeforeSwitch, unwind]
            · cases h9 : e.chmap_ok
              · simp [init, h1, hf, hsidx, hbf, h7, h8, h9, readBeforeSwitch, unwind]
              · cases h10 : e.read_virt_ok
                · simp [init, h1, hf, hsidx, hbf, h7, h8, h9, h10, readBeforeSwitch,
                    unwind]
                · cases h11 : e.new_format_ok
                  · simp [init, h1, hf, hsidx, hbf, h7, h8, h9, h10, h11,
                      readBeforeSwitch, unwind]
                  · cases h12 : e.channels_match
                    · simp [init, h1, hf, hsidx, hbf, h7, h8, h9, h10, h11, h12,
                        readBeforeSwitch, unwind]
                    · cases h13 : e.listener_ok
                      · simp [init, h1, hf, hsidx, hbf, h7, h8, h9, h10, h11, h12, h13,
                          readBeforeSwitch, unwind]
                      · cases h14 : e.ioproc_ok
                        · simp [init, h1, hf, hsidx, hbf, h7, h8, h9, h10, h11, h12,
                            h13, h14, readBeforeSwitch, unwind]
                        · simp [init, h1, hf, hsidx, hbf, h7, h8, h9, h10, h11, h12,
                            h13, h14, readBeforeSwitch, unwind]

/-- Claim C7: in every acquisition the original physical format is read
before any physical-format write appears in the trace, and whenever a
write occurs the original format has been cached in priv; at teardown
the only physical-format value ever written back is the cached original
format. -/
theorem claimC7_original_format (ftu : Nat → Nat → Nat) (e : InitEnv) (ue : UninitEnv) :
    readBeforeSwitch (init ftu e).trace = true
    ∧ (∀ f ok, Action.setPhysFormat f ok ∈ (init ftu e).trace →
        (init ftu e).priv.original_asbd = some e.orig)
    ∧ (∀ p : Priv, ∀ f ok, Action.setPhysFormat f ok ∈ uninit p ue →
        f = p.original_asbd.getD emptyAsbd) := by
  refine ⟨(init_read_before_switch ftu e).1, (init_read_before_switch ftu e).2, ?_⟩
  intro p f ok hmem
  simp [uninit] at hmem
  exact hmem.1

/-- Witness for C7: in the concrete all-ok environment the trace scanner
accepts, the cached original is the original format recorded in the environment, and
the value uninit writes back equals the cached original. -/
theorem claimC7_witness :
    readBeforeSwitch (init ftuDefault envOk).trace = true
    ∧ (init ftuDefault envOk).priv.original_asbd = some envOk.orig
    ∧ (⟨1, 44100, 16, 2⟩ : ASBD) =
        (Priv.mk true true (some 0) (some ⟨1, 44100, 16, 2⟩) none 0).original_asbd.getD
          emptyAsbd := by
  have h := claimC7_original_format ftuDefault envOk ueAll
  exact ⟨h.1, h.2.1 ⟨1, 48000, 16, 2⟩ true (by decide),
    h.2.2 (Priv.mk true true (some 0) (some ⟨1, 44100, 16, 2⟩) none 0)
      ⟨1, 44100, 16, 2⟩ true (by decide)⟩

end CoreaudioExclusive
